import Mathlib

/-!
Verification development for the team-chat backend: a shallow embedding of
the membership models (channels, workspaces, direct-message threads), the
message / file stores, and the realtime socket handlers, together with
theorems settling the specification's claims about them.

Conventions of the embedding:
* JavaScript `Map` objects become association lists; `Map.set` is modelled
  by prepending a binding (later bindings shadow earlier ones, which gives
  the same lookup semantics).
* `uuidv4()` identifiers become a `nextId : Nat` counter carried in each
  store; `new Date()` timestamps become an explicit `now : Nat` argument.
* `throw new Error(msg)` becomes `Except.error msg`; a throwing path
  returns no store, so the caller's state is unchanged, exactly as an
  exception leaves the in-memory maps untouched when thrown before any
  mutation.
-/

namespace Chat

/-- Lookup in an association list (the embedding of `Map.get`). -/
def lookupA {β : Type} : List (String × β) → String → Option β
  | [], _ => none
  | (k, v) :: rest, key => if key = k then some v else lookupA rest key

/-- Insert/overwrite in an association list (the embedding of `Map.set`):
prepending shadows any earlier binding for the same key. -/
def insertA {β : Type} (m : List (String × β)) (k : String) (v : β) : List (String × β) :=
  (k, v) :: m

/-- Remove a key (the embedding of `Map.delete`). -/
def removeA {β : Type} (m : List (String × β)) (k : String) : List (String × β) :=
  m.filter (fun kv => kv.1 ≠ k)

theorem lookupA_insertA_self {β : Type} (m : List (String × β)) (k : String) (v : β) :
    lookupA (insertA m k v) k = some v := by
  simp [insertA, lookupA]

theorem lookupA_insertA_ne {β : Type} (m : List (String × β)) (k k' : String) (v : β)
    (h : k' ≠ k) : lookupA (insertA m k v) k' = lookupA m k' := by
  simp [insertA, lookupA, h]

/-- Member roles, `'owner' | 'admin' | 'member'` in the source. -/
inductive Role where
  | owner
  | admin
  | member
deriving DecidableEq, Repr

/-- Channel visibility, `'public' | 'private'` in the source. -/
inductive ChannelType where
  | pub
  | priv
deriving DecidableEq, Repr

/-- User presence, `'active' | 'away' | 'dnd' | 'offline'` in the source. -/
inductive Status where
  | active
  | away
  | dnd
  | offline
deriving DecidableEq, Repr

namespace ChannelM

/-- Source `Channel` from `types`: id, name, type, creatorId, memberIds, timestamps. -/
structure Channel where
  id : String
  name : String
  type : ChannelType
  description : Option String
  creatorId : String
  memberIds : List String
  createdAt : Nat
  updatedAt : Nat
deriving DecidableEq, Repr

/-- Source `ChannelMember` from `types`. -/
structure ChannelMember where
  channelId : String
  userId : String
  role : Role
  joinedAt : Nat
deriving DecidableEq, Repr

/-- Source `CreateChannelInput` from `types` (`type` defaults to public in `createChannel`). -/
structure CreateChannelInput where
  name : String
  description : Option String
  type : Option ChannelType
deriving DecidableEq, Repr

/-- The channel model's module-level maps: `channels`, `channelsByName`,
`channelMembers`, plus the id counter standing in for `uuidv4`. -/
structure ChannelStore where
  nextId : Nat
  channels : List (String × Channel)
  channelsByName : List (String × String)
  channelMembers : List (String × List ChannelMember)
deriving DecidableEq, Repr

/-- Fresh channel ids: the counter rendered as a string stands in for `uuidv4()`. -/
def freshId (n : Nat) : String := "chan-" ++ toString n

/-- Tests whether `c` matches `[a-z0-9]`. -/
def isLowerAlnum (c : Char) : Bool :=
  (97 ≤ c.toNat && c.toNat ≤ 122) || (48 ≤ c.toNat && c.toNat ≤ 57)

/-- One pass of `.replace(/\s+/g, '-')`: each maximal whitespace run becomes one dash.
The flag records whether the previous character was whitespace. -/
def collapseWs : Bool → List Char → List Char
  | _, [] => []
  | prevWs, c :: rest =>
    if c.isWhitespace then
      if prevWs then collapseWs true rest
      else '-' :: collapseWs true rest
    else c :: collapseWs false rest

/-- Embeds `input.name.toLowerCase().replace(/\s+/g, '-')` from `createChannel`
(lowercasing character by character). -/
def normalizeName (s : String) : String :=
  String.mk (collapseWs false (s.data.map Char.toLower))

/-- The test `/^[a-z0-9][a-z0-9-]{0,78}[a-z0-9]$/.test(s)`: length 2..80, first and
last characters lowercase alphanumeric, interior characters alphanumeric or dash. -/
def nameRegexTest (s : String) : Bool :=
  let l := s.data
  decide (2 ≤ l.length) && decide (l.length ≤ 80) &&
    (match l.head? with | some c => isLowerAlnum c | none => false) &&
    (match l.getLast? with | some c => isLowerAlnum c | none => false) &&
    ((l.drop 1).dropLast.all fun c => isLowerAlnum c || c = '-')

/-- Source `createChannel` from the channel model. -/
def createChannel (input : CreateChannelInput) (creatorId : String) (now : Nat)
    (s : ChannelStore) : Except String (Channel × ChannelStore) :=
  let normalizedName := normalizeName input.name
  if (lookupA s.channelsByName normalizedName).isSome then
    .error "Channel name already exists"
  else if !nameRegexTest normalizedName && decide (normalizedName.length < 2) then
    .error "Invalid channel name"
  else
    let channel : Channel :=
      { id := freshId s.nextId
        name := normalizedName
        type := input.type.getD .pub
        description := input.description
        creatorId := creatorId
        memberIds := [creatorId]
        createdAt := now
        updatedAt := now }
    let member : ChannelMember :=
      { channelId := channel.id, userId := creatorId, role := .owner, joinedAt := now }
    .ok (channel,
      { nextId := s.nextId + 1
        channels := insertA s.channels channel.id channel
        channelsByName := insertA s.channelsByName normalizedName channel.id
        channelMembers := insertA s.channelMembers channel.id [member] })

/-- Source `addMember` from the channel model: for private channels the acting user must be
a member; the target must not already be a member. The `role` argument is stored
as given — there is no check that it is not `owner`. -/
def addMember (channelId userId addedBy : String) (role : Role) (now : Nat)
    (s : ChannelStore) : Except String (ChannelMember × ChannelStore) :=
  match lookupA s.channels channelId with
  | none => .error "Channel not found"
  | some channel =>
    let members := (lookupA s.channelMembers channelId).getD []
    let adder := members.find? (fun m => m.userId == addedBy)
    if channel.type = .priv ∧ adder = none then
      .error "Permission denied"
    else if userId ∈ channel.memberIds then
      .error "User is already a member"
    else
      let member : ChannelMember :=
        { channelId := channelId, userId := userId, role := role, joinedAt := now }
      let channel' := { channel with memberIds := channel.memberIds ++ [userId], updatedAt := now }
      .ok (member,
        { s with channels := insertA s.channels channelId channel'
                 channelMembers := insertA s.channelMembers channelId (members ++ [member]) })

/-- Source `removeMember` from the channel model. -/
def removeMember (channelId userId removedBy : String) (now : Nat)
    (s : ChannelStore) : Except String (Bool × ChannelStore) :=
  match lookupA s.channels channelId with
  | none => .error "Channel not found"
  | some channel =>
    let members := (lookupA s.channelMembers channelId).getD []
    let remover := members.find? (fun m => m.userId == removedBy)
    match members.find? (fun m => m.userId == userId) with
    | none => .error "User is not a member"
    | some toRemove =>
      if removedBy ≠ userId then
        match remover with
        | none => .error "Permission denied"
        | some r =>
          if r.role ≠ .owner ∧ r.role ≠ .admin then .error "Permission denied"
          else if toRemove.role = .owner then .error "Cannot remove channel owner"
          else
            let channel' := { channel with memberIds := channel.memberIds.filter (fun i => i ≠ userId)
                                           updatedAt := now }
            .ok (true,
              { s with channels := insertA s.channels channelId channel'
                       channelMembers := insertA s.channelMembers channelId
                         (members.filter (fun m => m.userId ≠ userId)) })
      else if toRemove.role = .owner then
        .error "Owner must transfer ownership before leaving"
      else
        let channel' := { channel with memberIds := channel.memberIds.filter (fun i => i ≠ userId)
                                       updatedAt := now }
        .ok (true,
          { s with channels := insertA s.channels channelId channel'
                   channelMembers := insertA s.channelMembers channelId
                     (members.filter (fun m => m.userId ≠ userId)) })

/-- Source `isMember` from the channel model. -/
def isMember (s : ChannelStore) (channelId userId : String) : Bool :=
  match lookupA s.channels channelId with
  | none => false
  | some channel => userId ∈ channel.memberIds

/-- Source `joinPublicChannel` from the channel model. -/
def joinPublicChannel (channelId userId : String) (now : Nat)
    (s : ChannelStore) : Except String (ChannelMember × ChannelStore) :=
  match lookupA s.channels channelId with
  | none => .error "Channel not found"
  | some channel =>
    if channel.type ≠ .pub then .error "Cannot join private channel without invitation"
    else if userId ∈ channel.memberIds then .error "Already a member"
    else
      let member : ChannelMember :=
        { channelId := channelId, userId := userId, role := .member, joinedAt := now }
      let channel' := { channel with memberIds := channel.memberIds ++ [userId], updatedAt := now }
      let members := (lookupA s.channelMembers channelId).getD []
      .ok (member,
        { s with channels := insertA s.channels channelId channel'
                 channelMembers := insertA s.channelMembers channelId (members ++ [member]) })

end ChannelM

namespace WorkspaceM

/-- Source `Workspace` from `types`: id, name, slug, description, ownerId, timestamps. -/
structure Workspace where
  id : String
  name : String
  slug : String
  description : Option String
  ownerId : String
  createdAt : Nat
  updatedAt : Nat
deriving DecidableEq, Repr

/-- Source `WorkspaceMember` from `types`. -/
structure WorkspaceMember where
  workspaceId : String
  userId : String
  role : Role
  joinedAt : Nat
deriving DecidableEq, Repr

/-- The workspace model's module-level maps: `workspaces`, `workspaceMembers`,
`userWorkspaces` (the `workspacesBySlug` index only serves `createWorkspace` /
`findWorkspaceBySlug`, which no claim touches, so it is omitted). -/
structure WsStore where
  workspaces : List (String × Workspace)
  workspaceMembers : List (String × List WorkspaceMember)
  userWorkspaces : List (String × List String)
deriving DecidableEq, Repr

/-- Mutate the first list element satisfying `p` (a JS `find` followed by an
in-place mutation of the found object touches exactly the first match). -/
def updateFirst {α : Type} (p : α → Bool) (f : α → α) : List α → List α
  | [] => []
  | x :: xs => if p x then f x :: xs else x :: updateFirst p f xs

/-- Source `addMember` from the workspace model: the acting user must be an owner or
admin, the target must not already be a member, and the role argument must not
be `owner`. Note that the `workspaces` map (and thus `updatedAt`) is not touched. -/
def addMember (workspaceId userId addedBy : String) (role : Role) (now : Nat)
    (s : WsStore) : Except String (WorkspaceMember × WsStore) :=
  match lookupA s.workspaces workspaceId with
  | none => .error "Workspace not found"
  | some _ =>
    let members := (lookupA s.workspaceMembers workspaceId).getD []
    match members.find? (fun m => m.userId == addedBy) with
    | none => .error "Permission denied"
    | some adder =>
      if adder.role ≠ .owner ∧ adder.role ≠ .admin then
        .error "Permission denied"
      else if (members.find? (fun m => m.userId == userId)).isSome then
        .error "User is already a member"
      else if role = .owner then
        .error "Cannot add user as owner"
      else
        let member : WorkspaceMember :=
          { workspaceId := workspaceId, userId := userId, role := role, joinedAt := now }
        .ok (member,
          { s with workspaceMembers := insertA s.workspaceMembers workspaceId (members ++ [member])
                   userWorkspaces := insertA s.userWorkspaces userId
                     (((lookupA s.userWorkspaces userId).getD []) ++ [workspaceId]) })

/-- Source `removeMember` from the workspace model. The `workspaces` map is not touched. -/
def removeMember (workspaceId userId removedBy : String)
    (s : WsStore) : Except String (Bool × WsStore) :=
  match lookupA s.workspaces workspaceId with
  | none => .error "Workspace not found"
  | some _ =>
    let members := (lookupA s.workspaceMembers workspaceId).getD []
    let remover := members.find? (fun m => m.userId == removedBy)
    match members.find? (fun m => m.userId == userId) with
    | none => .error "User is not a member"
    | some toRemove =>
      if removedBy ≠ userId then
        match remover with
        | none => .error "Permission denied"
        | some r =>
          if r.role ≠ .owner ∧ r.role ≠ .admin then .error "Permission denied"
          else if toRemove.role = .owner then .error "Cannot remove workspace owner"
          else
            .ok (true,
              { s with workspaceMembers := insertA s.workspaceMembers workspaceId
                         (members.filter (fun m => m.userId ≠ userId))
                       userWorkspaces := insertA s.userWorkspaces userId
                         (((lookupA s.userWorkspaces userId).getD []).filter
                           (fun w => w ≠ workspaceId)) })
      else if toRemove.role = .owner then
        .error "Owner must transfer ownership before leaving"
      else
        .ok (true,
          { s with workspaceMembers := insertA s.workspaceMembers workspaceId
                     (members.filter (fun m => m.userId ≠ userId))
                   userWorkspaces := insertA s.userWorkspaces userId
                     (((lookupA s.userWorkspaces userId).getD []).filter
                       (fun w => w ≠ workspaceId)) })

/-- Source `isMember` from the workspace model. -/
def isMember (s : WsStore) (workspaceId userId : String) : Bool :=
  ((lookupA s.workspaceMembers workspaceId).getD []).any (fun m => m.userId == userId)

/-- Source `updateMemberRole` from the workspace model: only the owner may change roles,
the target must not be the owner, and the new role must not be `owner`.
The `workspaces` map is not touched. -/
def updateMemberRole (workspaceId userId : String) (newRole : Role) (updatedBy : String)
    (s : WsStore) : Except String (WorkspaceMember × WsStore) :=
  match lookupA s.workspaces workspaceId with
  | none => .error "Workspace not found"
  | some _ =>
    let members := (lookupA s.workspaceMembers workspaceId).getD []
    let updater := members.find? (fun m => m.userId == updatedBy)
    match members.find? (fun m => m.userId == userId) with
    | none => .error "User is not a member"
    | some toUpdate =>
      match updater with
      | none => .error "Only workspace owner can change roles"
      | some u =>
        if u.role ≠ .owner then .error "Only workspace owner can change roles"
        else if toUpdate.role = .owner then .error "Use transfer ownership to change owner"
        else if newRole = .owner then .error "Use transfer ownership to promote to owner"
        else
          .ok ({ toUpdate with role := newRole },
            { s with workspaceMembers := insertA s.workspaceMembers workspaceId
                       (updateFirst (fun m => m.userId == userId)
                         (fun m => { m with role := newRole }) members) })

/-- Source `transferOwnership` from the workspace model: the caller must match the
workspace's `ownerId`, the new owner must already be a member; the old owner's
record becomes `admin`, the new owner's becomes `owner`, and the workspace's
owner pointer and `updatedAt` are updated. -/
def transferOwnership (workspaceId newOwnerId currentOwnerId : String) (now : Nat)
    (s : WsStore) : Except String (Bool × WsStore) :=
  match lookupA s.workspaces workspaceId with
  | none => .error "Workspace not found"
  | some workspace =>
    if workspace.ownerId ≠ currentOwnerId then
      .error "Only current owner can transfer ownership"
    else
      let members := (lookupA s.workspaceMembers workspaceId).getD []
      if (members.find? (fun m => m.userId == newOwnerId)).isNone then
        .error "New owner must be a workspace member"
      else
        let members1 :=
          if (members.find? (fun m => m.userId == currentOwnerId)).isSome then
            updateFirst (fun m => m.userId == currentOwnerId)
              (fun m => { m with role := .admin }) members
          else members
        let members2 :=
          updateFirst (fun m => m.userId == newOwnerId)
            (fun m => { m with role := .owner }) members1
        let workspace' := { workspace with ownerId := newOwnerId, updatedAt := now }
        .ok (true,
          { s with workspaces := insertA s.workspaces workspaceId workspace'
                   workspaceMembers := insertA s.workspaceMembers workspaceId members2 })

end WorkspaceM

namespace DMM

/-- Type `'dm' | 'group_dm'` from `types`. -/
inductive DMType where
  | dm
  | groupDm
deriving DecidableEq, Repr

/-- Source `DirectMessage` from `types`. -/
structure DirectMessage where
  id : String
  type : DMType
  participantIds : List String
  createdAt : Nat
  updatedAt : Nat
deriving DecidableEq, Repr

/-- The DM model's module-level maps: `dms`, `dmMessages`, `dmByParticipants`,
`userDMs`, plus the id counter standing in for `uuidv4`. -/
structure DMStore where
  nextId : Nat
  dms : List (String × DirectMessage)
  dmMessages : List (String × List String)
  dmByParticipants : List (String × String)
  userDMs : List (String × List String)
deriving DecidableEq, Repr

/-- Fresh DM ids from the counter. -/
def freshDMId (n : Nat) : String := "dm-" ++ toString n

/-- Embeds `[...new Set(list)]`: deduplicate keeping the first occurrence of each
element (dedup the tail, then drop later copies of the head). -/
def dedupFirst : List String → List String
  | [] => []
  | x :: xs => x :: (dedupFirst xs).filter (fun y => y ≠ x)

/-- Insertion into a `≤`-sorted list, for the embedding of `Array.sort()`. -/
def insertSorted (x : String) : List String → List String
  | [] => [x]
  | y :: ys => if x ≤ y then x :: y :: ys else y :: insertSorted x ys

/-- Embeds `[...userIds].sort()`, as an insertion sort over the string order. -/
def sortStrings (l : List String) : List String :=
  l.foldr insertSorted []

/-- Source `getDMKey` from the DM model: `[...userIds].sort().join(':')`. -/
def getDMKey (userIds : List String) : String :=
  String.intercalate ":" (sortStrings userIds)

/-- JS `Set.add`: append if absent. -/
def addIfAbsent (l : List String) (x : String) : List String :=
  if x ∈ l then l else l ++ [x]

/-- Source `findOrCreateDM` from the DM model: normalize the creator into the participant
list, deduplicate, require at least 2 participants; for exactly 2 participants
look up the canonical unordered-pair key and return the existing thread if any;
otherwise create a new thread (registering the pair key when it is a 1:1). The
`dms.get(existingId)!` non-null assertion is modelled as an internal error. -/
def findOrCreateDM (participantIds : List String) (creatorId : String) (now : Nat)
    (s : DMStore) : Except String (DirectMessage × DMStore) :=
  let ps0 := if creatorId ∈ participantIds then participantIds else participantIds ++ [creatorId]
  let ps := dedupFirst ps0
  if ps.length < 2 then .error "DM requires at least 2 participants"
  else
    match (if ps.length = 2 then lookupA s.dmByParticipants (getDMKey ps) else none) with
    | some existingId =>
      match lookupA s.dms existingId with
      | some dm => .ok (dm, s)
      | none => .error "internal: dm record missing"
    | none =>
      let dm : DirectMessage :=
        { id := freshDMId s.nextId
          type := if ps.length = 2 then .dm else .groupDm
          participantIds := ps
          createdAt := now
          updatedAt := now }
      .ok (dm,
        { nextId := s.nextId + 1
          dms := insertA s.dms dm.id dm
          dmMessages := insertA s.dmMessages dm.id []
          dmByParticipants :=
            if ps.length = 2 then insertA s.dmByParticipants (getDMKey ps) dm.id
            else s.dmByParticipants
          userDMs := ps.foldl
            (fun m uid => insertA m uid (addIfAbsent ((lookupA m uid).getD []) dm.id))
            s.userDMs })

/-- Source `isParticipant` from the DM model. -/
def isParticipant (s : DMStore) (dmId userId : String) : Bool :=
  match lookupA s.dms dmId with
  | none => false
  | some dm => userId ∈ dm.participantIds

end DMM

namespace UserM

/-- Source `User` from `types`. -/
structure User where
  id : String
  email : String
  username : String
  passwordHash : String
  displayName : String
  avatarUrl : Option String
  status : Status
  createdAt : Nat
  updatedAt : Nat
deriving DecidableEq, Repr

/-- Result type of the user model's `sanitizeUser`,
`Omit<User, 'passwordHash'>`: every `User` field except `passwordHash`. -/
structure PublicUser where
  id : String
  email : String
  username : String
  displayName : String
  avatarUrl : Option String
  status : Status
  createdAt : Nat
  updatedAt : Nat
deriving DecidableEq, Repr

/-- Source `sanitizeUser` from the user model: the destructuring
`const { passwordHash, ...safeUser } = user` drops `passwordHash` and keeps
every other field. -/
def sanitizeUser (u : User) : PublicUser :=
  { id := u.id, email := u.email, username := u.username, displayName := u.displayName
    avatarUrl := u.avatarUrl, status := u.status, createdAt := u.createdAt
    updatedAt := u.updatedAt }

/-- Source `UpdateUserInput` from `types`: the optional fields `updateUser`
merges over the stored record (`none` models an absent property). -/
structure UpdateUserInput where
  displayName : Option String
  avatarUrl : Option String
  status : Option Status
deriving DecidableEq, Repr

/-- Source `updateUser` from the user model: `null` (here `none`) when the id is
absent; otherwise `{ ...user, ...input, updatedAt: new Date() }` — every
property present on `input` overrides the stored one — written back to the map
and returned. -/
def updateUser (users : List (String × User)) (id : String) (input : UpdateUserInput)
    (now : Nat) : Option User × List (String × User) :=
  match lookupA users id with
  | none => (none, users)
  | some user =>
    let updatedUser : User :=
      { user with
        displayName := input.displayName.getD user.displayName
        avatarUrl := match input.avatarUrl with
          | some a => some a
          | none => user.avatarUrl
        status := input.status.getD user.status
        updatedAt := now }
    (some updatedUser, insertA users id updatedUser)

end UserM

namespace MessageM

/-- Type `'text' | 'system'` from `types`. -/
inductive MsgType where
  | text
  | system
deriving DecidableEq, Repr

/-- Source `Message` from `types`. -/
structure Message where
  id : String
  channelId : String
  userId : String
  content : String
  type : MsgType
  createdAt : Nat
  updatedAt : Nat
deriving DecidableEq, Repr

/-- The message model's maps: `messages` and `channelMessages` (ordered id lists),
plus the id counter standing in for `uuidv4`. -/
structure MsgStore where
  nextId : Nat
  messages : List (String × Message)
  channelMessages : List (String × List String)
deriving DecidableEq, Repr

/-- Fresh message ids from the counter. -/
def freshMsgId (n : Nat) : String := "msg-" ++ toString n

/-- Source `createMessage` from the message model (type defaults to `'text'`). -/
def createMessage (channelId userId content : String) (type : MsgType) (now : Nat)
    (s : MsgStore) : Message × MsgStore :=
  let message : Message :=
    { id := freshMsgId s.nextId, channelId := channelId, userId := userId
      content := content, type := type, createdAt := now, updatedAt := now }
  (message,
    { nextId := s.nextId + 1
      messages := insertA s.messages message.id message
      channelMessages := insertA s.channelMessages channelId
        (((lookupA s.channelMessages channelId).getD []) ++ [message.id]) })

/-- Source `getChannelMessages(channelId, limit)` (no `before`): the last `limit` ids of
the channel's ordered list, resolved through the `messages` map. -/
def getChannelMessages (s : MsgStore) (channelId : String) (limit : Nat) : List Message :=
  let messageIds := (lookupA s.channelMessages channelId).getD []
  let selected := messageIds.drop (messageIds.length - limit)
  selected.filterMap (fun id => lookupA s.messages id)

end MessageM

namespace FileM

/-- Source `FileUpload` from `types` (ids and foreign keys are strings in the source). -/
structure FileUpload where
  id : String
  filename : String
  originalName : String
  mimeType : String
  size : Nat
  uploaderId : String
  channelId : Option String
  dmId : Option String
  messageId : Option String
  createdAt : Nat
deriving DecidableEq, Repr

/-- The file model's `files` map (the data/byIndex maps play no part in the
claims settled here). -/
structure FileStore where
  files : List (String × FileUpload)
deriving DecidableEq, Repr

/-- Source `getFileById` from the file model. -/
def getFileById (s : FileStore) (id : String) : Option FileUpload :=
  lookupA s.files id

/-- Source `attachFileToMessage` from the file model: set `messageId` on the stored
record, returning the updated record (or `none` when absent). -/
def attachFileToMessage (s : FileStore) (fileId messageId : String) :
    Option FileUpload × FileStore :=
  match lookupA s.files fileId with
  | none => (none, s)
  | some file =>
    let file' := { file with messageId := some messageId }
    (some file', { files := insertA s.files fileId file' })

end FileM

namespace SocketM

open UserM MessageM FileM ChannelM

/-- A file enriched with its download url, as pushed into the broadcast payload
(`{ ...file, url }` — the spread runs after `attachFileToMessage`, so the copied
record already carries the new `messageId`). -/
structure FileWithUrl where
  file : FileUpload
  url : String
deriving DecidableEq, Repr

/-- The `message:new` broadcast payload: the stored message spread together with
the sanitized sender and, when non-empty, the attached files (`undefined`
otherwise, modelled as `none`). -/
structure BroadcastMessage where
  message : Message
  user : PublicUser
  files : Option (List FileWithUrl)
deriving DecidableEq, Repr

/-- One `emit` performed by a handler, tagged with its addressing: `errorTo` is
`socket.emit('error', …)` (that connection only), `presenceChanged` is the global
`io.emit`, `channelJoinedNotice` is `socket.to(room).emit` (room minus sender),
`channelHistory` is `socket.emit` to the joining connection, `messageNew` is
`io.to(room).emit`. -/
inductive Emission where
  | errorTo (sid : String) (msg : String)
  | presenceChanged (userId : String) (st : Status)
  | channelJoinedNotice (room : String) (exceptSid : String) (channelId : String) (userId : String)
  | channelHistory (sid : String) (channelId : String) (msgs : List Message)
  | messageNew (room : String) (payload : BroadcastMessage)
deriving DecidableEq, Repr

/-- The socket layer's session state: the module-level `userSockets` map
(userId → live socket ids), the user store it mutates through `updateUser`, and
each connection's room subscriptions (`socket.join`). -/
structure SessionState where
  userSockets : List (String × List String)
  users : List (String × User)
  subscriptions : List (String × List String)
deriving DecidableEq, Repr

/-- The `io.on('connection')` prologue: record the socket under the user's
socket set, then set the user's status to `active` and broadcast
`presence:changed` — both unconditionally, whether or not other connections of
the same user are live. -/
def onConnection (st : SessionState) (user : User) (sid : String) (now : Nat) :
    SessionState × List Emission :=
  let socks := (lookupA st.userSockets user.id).getD []
  let socks' := DMM.addIfAbsent socks sid
  ({ st with userSockets := insertA st.userSockets user.id socks'
             users := (updateUser st.users user.id
               { displayName := none, avatarUrl := none, status := some .active } now).2 },
   [.presenceChanged user.id .active])

/-- The `disconnect` handler: drop the socket from the user's socket set; when
that set becomes empty, delete the entry, set the user offline and broadcast
`presence:changed` once; otherwise leave the user record alone and emit nothing. -/
def onDisconnect (st : SessionState) (userId sid : String) (now : Nat) :
    SessionState × List Emission :=
  match lookupA st.userSockets userId with
  | none => (st, [])
  | some socks =>
    let socks' := socks.filter (fun x => x ≠ sid)
    if socks' = [] then
      ({ st with userSockets := removeA st.userSockets userId
                 users := (updateUser st.users userId
                   { displayName := none, avatarUrl := none, status := some .offline } now).2 },
       [.presenceChanged userId .offline])
    else
      ({ st with userSockets := insertA st.userSockets userId socks' }, [])

/-- The room name `channel:${channelId}`. -/
def channelRoom (channelId : String) : String := "channel:" ++ channelId

/-- The `channel:join` handler: unknown channel → scoped error; private channel
and non-member → scoped "Access denied" error, nothing joined; otherwise join
the room, notify the rest of the room, and send the recent history to this
connection only. -/
def channelJoin (cs : ChannelStore) (ms : MsgStore) (st : SessionState)
    (user : User) (sid : String) (channelId : String) : SessionState × List Emission :=
  match lookupA cs.channels channelId with
  | none => (st, [.errorTo sid "Channel not found"])
  | some channel =>
    if channel.type = .priv ∧ isMember cs channelId user.id = false then
      (st, [.errorTo sid "Access denied"])
    else
      let room := channelRoom channelId
      let subs := (lookupA st.subscriptions sid).getD []
      let subs' := if room ∈ subs then subs else subs ++ [room]
      ({ st with subscriptions := insertA st.subscriptions sid subs' },
       [.channelJoinedNotice room sid channelId user.id,
        .channelHistory sid channelId (getChannelMessages ms channelId 50)])

/-- Modelled from the spec: `isAuthorizedViewer(containerId, userId)` — "true if
container is public, or userId is a member". The source has no function of this
name; the `channel:join` handler inlines exactly this check via `channel.type`
and the channel model's `isMember`. -/
def isAuthorizedViewer (cs : ChannelStore) (channelId userId : String) : Bool :=
  match lookupA cs.channels channelId with
  | none => false
  | some channel => channel.type = .pub || isMember cs channelId userId

/-- JS `String.prototype.trim()`: strip whitespace from both ends. -/
def jsTrim (s : String) : String :=
  String.mk (((s.data.dropWhile Char.isWhitespace).reverse.dropWhile Char.isWhitespace).reverse)

/-- The client payload of `message:send`: channel id, content, optional file ids. -/
structure SendInput where
  channelId : String
  content : String
  fileIds : Option (List String)
deriving DecidableEq, Repr

/-- The file-attachment loop of the `message:send` handler: for each requested
file id, look it up; if it exists and its uploader is the sender, attach it to
the message and push the post-attach record (with its url) onto the payload
list; otherwise skip it silently. -/
def attachLoop (userId messageId : String) (fileIds : List String)
    (acc : List FileWithUrl) (fs : FileStore) : List FileWithUrl × FileStore :=
  match fileIds with
  | [] => (acc, fs)
  | fileId :: rest =>
    match getFileById fs fileId with
    | some file =>
      if file.uploaderId = userId then
        let (attached, fs') := attachFileToMessage fs fileId messageId
        match attached with
        | some file' =>
          attachLoop userId messageId rest
            (acc ++ [{ file := file', url := "/files/" ++ file.id ++ "/download" }]) fs'
        | none => attachLoop userId messageId rest acc fs'
      else attachLoop userId messageId rest acc fs
    | none => attachLoop userId messageId rest acc fs

/-- The `message:send` handler: reject when the trimmed content is empty and no
files are attached (before any store write); reject unknown channels and
non-members; otherwise persist the message, attach the sender's valid files, and
broadcast the enriched payload to the channel room. -/
def messageSend (cs : ChannelStore) (ms : MsgStore) (fs : FileStore)
    (user : User) (sid : String) (data : SendInput) (now : Nat) :
    MsgStore × FileStore × List Emission :=
  if jsTrim data.content = "" ∧ data.fileIds.getD [] = [] then
    (ms, fs, [.errorTo sid "Message content or files required"])
  else
    match lookupA cs.channels data.channelId with
    | none => (ms, fs, [.errorTo sid "Channel not found"])
    | some _ =>
      if isMember cs data.channelId user.id = false then
        (ms, fs, [.errorTo sid "Not a channel member"])
      else
        let (message, ms') := createMessage data.channelId user.id (jsTrim data.content) .text now ms
        let (files, fs') := attachLoop user.id message.id (data.fileIds.getD []) [] fs
        let payload : BroadcastMessage :=
          { message := message, user := sanitizeUser user
            files := if files = [] then none else some files }
        (ms', fs', [.messageNew (channelRoom data.channelId) payload])

end SocketM

/-! Theorems settling the claims. -/

/-- Claim C1: the spec's invariant "exactly one member has role `owner`" after any
sequence of membership operations fails on the channel model: starting from an
empty store, `createChannel` followed by `addMember` with role `owner` (which the
channel model accepts) yields a channel with two `owner` members. -/
theorem claim1_channel_addMember_creates_second_owner :
    ((ChannelM.createChannel ⟨"general", none, none⟩ "alice" 0 ⟨0, [], [], []⟩).bind
      (fun p => (ChannelM.addMember p.1.id "bob" "alice" .owner 1 p.2).map
        (fun q => ((lookupA q.2.channelMembers p.1.id).getD []).countP
          (fun mem => mem.role == Role.owner))))
      = .ok 2 := by
  rfl

/-- Claim C2: "addMember called with role `owner` fails with InvalidOperation"
fails on the channel model: the channel `addMember` has no role check (unlike the
workspace one) and happily grants a membership whose role is `owner`. -/
theorem claim2_channel_addMember_accepts_owner_role :
    ((ChannelM.createChannel ⟨"general", none, none⟩ "alice" 0 ⟨0, [], [], []⟩).bind
      (fun p => (ChannelM.addMember p.1.id "bob" "alice" .owner 1 p.2).map
        (fun q => (q.1.role, q.1.userId))))
      = .ok (Role.owner, "bob") := by
  rfl

/-- Claim C3: in both the channel and the workspace model, the owner removing
themselves fails with the invalid-operation error "Owner must transfer ownership
before leaving"; the error is raised before any mutation, so (the embedding's
error branches carrying no store) membership is unchanged. -/
theorem claim3_owner_self_removal_rejected
    (cs : ChannelM.ChannelStore) (cid u : String) (ch : ChannelM.Channel)
    (hch : lookupA cs.channels cid = some ch)
    (m : ChannelM.ChannelMember)
    (hm : ((lookupA cs.channelMembers cid).getD []).find? (fun x => x.userId == u) = some m)
    (hrole : m.role = .owner)
    (ws : WorkspaceM.WsStore) (wid v : String) (w : WorkspaceM.Workspace)
    (hw : lookupA ws.workspaces wid = some w)
    (wm : WorkspaceM.WorkspaceMember)
    (hwm : ((lookupA ws.workspaceMembers wid).getD []).find? (fun x => x.userId == v) = some wm)
    (hwrole : wm.role = .owner) (now : Nat) :
    ChannelM.removeMember cid u u now cs
      = .error "Owner must transfer ownership before leaving" ∧
    WorkspaceM.removeMember wid v v ws
      = .error "Owner must transfer ownership before leaving" := by
  constructor
  · simp [ChannelM.removeMember, hch, hm, hrole]
  · simp [WorkspaceM.removeMember, hw, hwm, hwrole]

/-- Concrete channel store for the claim-3 witness: channel "c" with owner "alice". -/
def csOwnerOnly : ChannelM.ChannelStore :=
  { nextId := 1
    channels := [("c", { id := "c", name := "c", type := .pub, description := none
                         creatorId := "alice", memberIds := ["alice"]
                         createdAt := 0, updatedAt := 0 })]
    channelsByName := [("c", "c")]
    channelMembers := [("c", [{ channelId := "c", userId := "alice", role := .owner
                                joinedAt := 0 }])] }

/-- Concrete workspace store for the claim-3 witness: workspace "w" with owner "ann". -/
def wsOwnerOnly : WorkspaceM.WsStore :=
  { workspaces := [("w", { id := "w", name := "w", slug := "w", description := none
                           ownerId := "ann", createdAt := 0, updatedAt := 0 })]
    workspaceMembers := [("w", [{ workspaceId := "w", userId := "ann", role := .owner
                                  joinedAt := 0 }])]
    userWorkspaces := [("ann", ["w"])] }

/-- Witness for claim C3 at the concrete stores above. -/
theorem claim3_witness :
    ChannelM.removeMember "c" "alice" "alice" 9 csOwnerOnly
      = .error "Owner must transfer ownership before leaving" ∧
    WorkspaceM.removeMember "w" "ann" "ann" wsOwnerOnly
      = .error "Owner must transfer ownership before leaving" :=
  claim3_owner_self_removal_rejected csOwnerOnly "c" "alice"
    { id := "c", name := "c", type := .pub, description := none, creatorId := "alice"
      memberIds := ["alice"], createdAt := 0, updatedAt := 0 } rfl
    { channelId := "c", userId := "alice", role := .owner, joinedAt := 0 } rfl rfl
    wsOwnerOnly "w" "ann"
    { id := "w", name := "w", slug := "w", description := none, ownerId := "ann"
      createdAt := 0, updatedAt := 0 } rfl
    { workspaceId := "w", userId := "ann", role := .owner, joinedAt := 0 } rfl rfl 9

/-- Claim C10: on a public channel, `addMember` performs no permission check on
the acting user: whenever the channel exists and the target is not already a
member, the call succeeds and records the new member with the requested role,
for any acting user whatsoever. -/
theorem claim10_public_addMember_no_permission_check
    (cs : ChannelM.ChannelStore) (cid uid actingUid : String) (r : Role) (now : Nat)
    (ch : ChannelM.Channel)
    (hch : lookupA cs.channels cid = some ch)
    (hpub : ch.type = .pub)
    (hnot : uid ∉ ch.memberIds) :
    ∃ s', ChannelM.addMember cid uid actingUid r now cs =
        .ok ({ channelId := cid, userId := uid, role := r, joinedAt := now }, s') ∧
      lookupA s'.channels cid
        = some { ch with memberIds := ch.memberIds ++ [uid], updatedAt := now } := by
  refine ⟨{ cs with
      channels := insertA cs.channels cid
        { ch with memberIds := ch.memberIds ++ [uid], updatedAt := now }
      channelMembers := insertA cs.channelMembers cid
        (((lookupA cs.channelMembers cid).getD []) ++
          [{ channelId := cid, userId := uid, role := r, joinedAt := now }]) }, ?_, ?_⟩
  · simp [ChannelM.addMember, hch, hpub, hnot]
  · simp [lookupA_insertA_self]

/-- Witness for claim C10: "stranger" (not a member) adds "bob" to the public
channel of `csOwnerOnly` with role admin, successfully. -/
theorem claim10_witness :
    ∃ s', ChannelM.addMember "c" "bob" "stranger" .admin 7 csOwnerOnly =
        .ok ({ channelId := "c", userId := "bob", role := .admin, joinedAt := 7 }, s') ∧
      lookupA s'.channels "c"
        = some { id := "c", name := "c", type := .pub, description := none
                 creatorId := "alice", memberIds := ["alice", "bob"]
                 createdAt := 0, updatedAt := 7 } :=
  claim10_public_addMember_no_permission_check csOwnerOnly "c" "bob" "stranger"
    .admin 7
    { id := "c", name := "c", type := .pub, description := none, creatorId := "alice"
      memberIds := ["alice"], createdAt := 0, updatedAt := 0 } rfl rfl (by decide)

/-- Claim C9 counterexample: the workspace model's `addMember` succeeds (here at
time 5) without touching the `workspaces` map, so the workspace's `updatedAt`
stays 0 — refuting "every mutating membership operation sets the container's
`updatedAt`". -/
theorem claim9_counterexample :
    ((WorkspaceM.addMember "w" "bob" "ann" .member 5 wsOwnerOnly).map
      (fun p => (lookupA p.2.workspaces "w").map (fun w => w.updatedAt)))
      = .ok (some 0) := by
  rfl

/-- Claim C9 as amended: the channel membership mutations (`addMember`,
`removeMember`, `joinPublicChannel`) and the workspace `transferOwnership` set
the container's `updatedAt` to the mutation time, while the workspace
`addMember`, `removeMember` and `updateMemberRole` leave the `workspaces` map
(and hence `updatedAt`) entirely unchanged. -/
theorem claim9_amended_updatedAt_behavior :
    (∀ cid uid actor r now s m s', ChannelM.addMember cid uid actor r now s = .ok (m, s') →
      ∃ ch, lookupA s'.channels cid = some ch ∧ ch.updatedAt = now) ∧
    (∀ cid uid actor now s b s', ChannelM.removeMember cid uid actor now s = .ok (b, s') →
      ∃ ch, lookupA s'.channels cid = some ch ∧ ch.updatedAt = now) ∧
    (∀ cid uid now s m s', ChannelM.joinPublicChannel cid uid now s = .ok (m, s') →
      ∃ ch, lookupA s'.channels cid = some ch ∧ ch.updatedAt = now) ∧
    (∀ wid nid oid now s b s', WorkspaceM.transferOwnership wid nid oid now s = .ok (b, s') →
      ∃ w, lookupA s'.workspaces wid = some w ∧ w.updatedAt = now) ∧
    (∀ wid uid actor r now s m s', WorkspaceM.addMember wid uid actor r now s = .ok (m, s') →
      s'.workspaces = s.workspaces) ∧
    (∀ wid uid actor s b s', WorkspaceM.removeMember wid uid actor s = .ok (b, s') →
      s'.workspaces = s.workspaces) ∧
    (∀ wid uid r actor s m s', WorkspaceM.updateMemberRole wid uid r actor s = .ok (m, s') →
      s'.workspaces = s.workspaces) := by
  refine ⟨?_, ?_, ?_, ?_, ?_, ?_, ?_⟩
  · intro cid uid actor r now s m s' h
    unfold ChannelM.addMember at h
    cases hch : lookupA s.channels cid with
    | none => rw [hch] at h; exact Except.noConfusion h
    | some channel =>
      rw [hch] at h
      dsimp only at h
      by_cases h1 : channel.type = ChannelType.priv ∧
          List.find? (fun x => x.userId == actor) ((lookupA s.channelMembers cid).getD []) = none
      · rw [if_pos h1] at h; exact Except.noConfusion h
      · rw [if_neg h1] at h
        by_cases h2 : uid ∈ channel.memberIds
        · rw [if_pos h2] at h; exact Except.noConfusion h
        · rw [if_neg h2] at h
          simp only [Except.ok.injEq, Prod.mk.injEq] at h
          obtain ⟨-, hs⟩ := h
          subst hs
          exact ⟨_, lookupA_insertA_self _ _ _, rfl⟩
  · intro cid uid actor now s b s' h
    unfold ChannelM.removeMember at h
    cases hch : lookupA s.channels cid with
    | none => rw [hch] at h; exact Except.noConfusion h
    | some channel =>
      rw [hch] at h
      dsimp only at h
      cases hfind : List.find? (fun x => x.userId == uid) ((lookupA s.channelMembers cid).getD []) with
      | none => rw [hfind] at h; exact Except.noConfusion h
      | some toRemove =>
        rw [hfind] at h
        dsimp only at h
        by_cases hne : actor ≠ uid
        · rw [if_pos hne] at h
          cases hrem : List.find? (fun x => x.userId == actor) ((lookupA s.channelMembers cid).getD []) with
          | none => rw [hrem] at h; exact Except.noConfusion h
          | some r =>
            rw [hrem] at h
            dsimp only at h
            by_cases hr : r.role ≠ Role.owner ∧ r.role ≠ Role.admin
            · rw [if_pos hr] at h; exact Except.noConfusion h
            · rw [if_neg hr] at h
              by_cases ho : toRemove.role = Role.owner
              · rw [if_pos ho] at h; exact Except.noConfusion h
              · rw [if_neg ho] at h
                simp only [Except.ok.injEq, Prod.mk.injEq] at h
                obtain ⟨-, hs⟩ := h
                subst hs
                exact ⟨_, lookupA_insertA_self _ _ _, rfl⟩
        · rw [if_neg hne] at h
          by_cases ho : toRemove.role = Role.owner
          · rw [if_pos ho] at h; exact Except.noConfusion h
          · rw [if_neg ho] at h
            simp only [Except.ok.injEq, Prod.mk.injEq] at h
            obtain ⟨-, hs⟩ := h
            subst hs
            exact ⟨_, lookupA_insertA_self _ _ _, rfl⟩
  · intro cid uid now s m s' h
    unfold ChannelM.joinPublicChannel at h
    cases hch : lookupA s.channels cid with
    | none => rw [hch] at h; exact Except.noConfusion h
    | some channel =>
      rw [hch] at h
      dsimp only at h
      by_cases h1 : channel.type ≠ ChannelType.pub
      · rw [if_pos h1] at h; exact Except.noConfusion h
      · rw [if_neg h1] at h
        by_cases h2 : uid ∈ channel.memberIds
        · rw [if_pos h2] at h; exact Except.noConfusion h
        · rw [if_neg h2] at h
          simp only [Except.ok.injEq, Prod.mk.injEq] at h
          obtain ⟨-, hs⟩ := h
          subst hs
          exact ⟨_, lookupA_insertA_self _ _ _, rfl⟩
  · intro wid nid oid now s b s' h
    unfold WorkspaceM.transferOwnership at h
    cases hw : lookupA s.workspaces wid with
    | none => rw [hw] at h; exact Except.noConfusion h
    | some workspace =>
      rw [hw] at h
      dsimp only at h
      by_cases h1 : workspace.ownerId ≠ oid
      · rw [if_pos h1] at h; exact Except.noConfusion h
      · rw [if_neg h1] at h
        by_cases h2 : (List.find? (fun x => x.userId == nid)
            ((lookupA s.workspaceMembers wid).getD [])).isNone = true
        · rw [if_pos h2] at h; exact Except.noConfusion h
        · rw [if_neg h2] at h
          simp only [Except.ok.injEq, Prod.mk.injEq] at h
          obtain ⟨-, hs⟩ := h
          subst hs
          exact ⟨_, lookupA_insertA_self _ _ _, rfl⟩
  · intro wid uid actor r now s m s' h
    unfold WorkspaceM.addMember at h
    cases hw : lookupA s.workspaces wid with
    | none => rw [hw] at h; exact Except.noConfusion h
    | some workspace =>
      rw [hw] at h
      dsimp only at h
      cases hadder : List.find? (fun x => x.userId == actor) ((lookupA s.workspaceMembers wid).getD []) with
      | none => rw [hadder] at h; exact Except.noConfusion h
      | some adder =>
        rw [hadder] at h
        dsimp only at h
        by_cases h1 : adder.role ≠ Role.owner ∧ adder.role ≠ Role.admin
        · rw [if_pos h1] at h; exact Except.noConfusion h
        · rw [if_neg h1] at h
          by_cases h2 : (List.find? (fun x => x.userId == uid)
              ((lookupA s.workspaceMembers wid).getD [])).isSome = true
          · rw [if_pos h2] at h; exact Except.noConfusion h
          · rw [if_neg h2] at h
            by_cases h3 : r = Role.owner
            · rw [if_pos h3] at h; exact Except.noConfusion h
            · rw [if_neg h3] at h
              simp only [Except.ok.injEq, Prod.mk.injEq] at h
              obtain ⟨-, hs⟩ := h
              subst hs
              rfl
  · intro wid uid actor s b s' h
    unfold WorkspaceM.removeMember at h
    cases hw : lookupA s.workspaces wid with
    | none => rw [hw] at h; exact Except.noConfusion h
    | some workspace =>
      rw [hw] at h
      dsimp only at h
      cases hfind : List.find? (fun x => x.userId == uid) ((lookupA s.workspaceMembers wid).getD []) with
      | none => rw [hfind] at h; exact Except.noConfusion h
      | some toRemove =>
        rw [hfind] at h
        dsimp only at h
        by_cases hne : actor ≠ uid
        · rw [if_pos hne] at h
          cases hrem : List.find? (fun x => x.userId == actor) ((lookupA s.workspaceMembers wid).getD []) with
          | none => rw [hrem] at h; exact Except.noConfusion h
          | some r =>
            rw [hrem] at h
            dsimp only at h
            by_cases hr : r.role ≠ Role.owner ∧ r.role ≠ Role.admin
            · rw [if_pos hr] at h; exact Except.noConfusion h
            · rw [if_neg hr] at h
              by_cases ho : toRemove.role = Role.owner
              · rw [if_pos ho] at h; exact Except.noConfusion h
              · rw [if_neg ho] at h
                simp only [Except.ok.injEq, Prod.mk.injEq] at h
                obtain ⟨-, hs⟩ := h
                subst hs
                rfl
        · rw [if_neg hne] at h
          by_cases ho : toRemove.role = Role.owner
          · rw [if_pos ho] at h; exact Except.noConfusion h
          · rw [if_neg ho] at h
            simp only [Except.ok.injEq, Prod.mk.injEq] at h
            obtain ⟨-, hs⟩ := h
            subst hs
            rfl
  · intro wid uid r actor s m s' h
    unfold WorkspaceM.updateMemberRole at h
    cases hw : lookupA s.workspaces wid with
    | none => rw [hw] at h; exact Except.noConfusion h
    | some workspace =>
      rw [hw] at h
      dsimp only at h
      cases hfind : List.find? (fun x => x.userId == uid) ((lookupA s.workspaceMembers wid).getD []) with
      | none => rw [hfind] at h; exact Except.noConfusion h
      | some toUpdate =>
        rw [hfind] at h
        dsimp only at h
        cases hupd : List.find? (fun x => x.userId == actor) ((lookupA s.workspaceMembers wid).getD []) with
        | none => rw [hupd] at h; exact Except.noConfusion h
        | some u =>
          rw [hupd] at h
          dsimp only at h
          by_cases h1 : u.role ≠ Role.owner
          · rw [if_pos h1] at h; exact Except.noConfusion h
          · rw [if_neg h1] at h
            by_cases h2 : toUpdate.role = Role.owner
            · rw [if_pos h2] at h; exact Except.noConfusion h
            · rw [if_neg h2] at h
              by_cases h3 : r = Role.owner
              · rw [if_pos h3] at h; exact Except.noConfusion h
              · rw [if_neg h3] at h
                simp only [Except.ok.injEq, Prod.mk.injEq] at h
                obtain ⟨-, hs⟩ := h
                subst hs
                rfl

/-- The store produced by `addMember "c" "carol" "alice" member 7` on `csOwnerOnly`,
written out for the claim-9 witness. -/
def c9resStore : ChannelM.ChannelStore :=
  { nextId := 1
    channels := [("c", { id := "c", name := "c", type := .pub, description := none
                         creatorId := "alice", memberIds := ["alice", "carol"]
                         createdAt := 0, updatedAt := 7 }),
                 ("c", { id := "c", name := "c", type := .pub, description := none
                         creatorId := "alice", memberIds := ["alice"]
                         createdAt := 0, updatedAt := 0 })]
    channelsByName := [("c", "c")]
    channelMembers := [("c", [{ channelId := "c", userId := "alice", role := .owner, joinedAt := 0 },
                              { channelId := "c", userId := "carol", role := .member, joinedAt := 7 }]),
                       ("c", [{ channelId := "c", userId := "alice", role := .owner, joinedAt := 0 }])] }

/-- Witness for claim C9's amended statement: a successful channel `addMember` at
time 7 leaves the channel with `updatedAt = 7`. -/
theorem claim9_witness :
    ∃ ch, lookupA c9resStore.channels "c" = some ch ∧ ch.updatedAt = 7 :=
  claim9_amended_updatedAt_behavior.1 "c" "carol" "alice" .member 7 csOwnerOnly
    { channelId := "c", userId := "carol", role := .member, joinedAt := 7 } c9resStore rfl

/-- Deduplicating a two-element list of distinct ids is the identity. -/
theorem dedupFirst_pair (a b : String) (h : b ≠ a) : DMM.dedupFirst [a, b] = [a, b] := by
  simp [DMM.dedupFirst, List.filter, h]

/-- The canonical pair key is symmetric in its two participants: sorting makes
the key depend only on the unordered pair. -/
theorem getDMKey_comm (a b : String) : DMM.getDMKey [a, b] = DMM.getDMKey [b, a] := by
  unfold DMM.getDMKey DMM.sortStrings
  rcases le_total a b with h | h
  · by_cases h2 : b ≤ a
    · have hab : a = b := le_antisymm h h2
      subst hab; rfl
    · simp [DMM.insertSorted, h, h2]
  · by_cases h2 : a ≤ b
    · have hab : a = b := le_antisymm h2 h
      subst hab; rfl
    · simp [DMM.insertSorted, h, h2]

/-- The `DirectMessage` record created for a fresh 1:1 thread. -/
def dmPair (l : List String) (n : Nat) (t : Nat) : DMM.DirectMessage :=
  { id := DMM.freshDMId n, type := .dm, participantIds := l, createdAt := t, updatedAt := t }

/-- Behaviour of `findOrCreateDM` on a distinct pair, when the canonical key is already
registered and the store holds the thread: it returns the existing thread and
leaves the store untouched. -/
theorem findOrCreateDM_pair_found (u1 u2 : String) (l : List String) (t : Nat)
    (s : DMM.DMStore) (hne : u1 ≠ u2) (hl : l = [u1, u2] ∨ l = [u2, u1])
    (eid : String) (dm : DMM.DirectMessage)
    (hlook : lookupA s.dmByParticipants (DMM.getDMKey [u1, u2]) = some eid)
    (hdms : lookupA s.dms eid = some dm) :
    DMM.findOrCreateDM l u1 t s = .ok (dm, s) := by
  rcases hl with rfl | rfl
  · have hmem : u1 ∈ [u1, u2] := by simp
    have hded : DMM.dedupFirst [u1, u2] = [u1, u2] := dedupFirst_pair _ _ (Ne.symm hne)
    unfold DMM.findOrCreateDM
    rw [if_pos hmem]
    dsimp only
    simp only [hded, List.length_cons, List.length_nil]
    norm_num
    rw [hlook]
    dsimp only
    rw [hdms]
  · have hmem : u1 ∈ [u2, u1] := by simp
    have hded : DMM.dedupFirst [u2, u1] = [u2, u1] := dedupFirst_pair _ _ hne
    unfold DMM.findOrCreateDM
    rw [if_pos hmem]
    dsimp only
    simp only [hded, List.length_cons, List.length_nil]
    norm_num
    rw [← getDMKey_comm, hlook]
    dsimp only
    rw [hdms]

/-- Behaviour of `findOrCreateDM` on a distinct pair, when the canonical key is not yet
registered: it creates a fresh thread, registers the key for it, and stores the
thread under its fresh id. -/
theorem findOrCreateDM_pair_create (u1 u2 : String) (l : List String) (t : Nat)
    (s : DMM.DMStore) (hne : u1 ≠ u2) (hl : l = [u1, u2] ∨ l = [u2, u1])
    (hlook : lookupA s.dmByParticipants (DMM.getDMKey [u1, u2]) = none) :
    ∃ s', DMM.findOrCreateDM l u1 t s = .ok (dmPair l s.nextId t, s') ∧
      lookupA s'.dmByParticipants (DMM.getDMKey l) = some (DMM.freshDMId s.nextId) ∧
      lookupA s'.dms (DMM.freshDMId s.nextId) = some (dmPair l s.nextId t) := by
  refine ⟨{ nextId := s.nextId + 1
            dms := insertA s.dms (DMM.freshDMId s.nextId) (dmPair l s.nextId t)
            dmMessages := insertA s.dmMessages (DMM.freshDMId s.nextId) []
            dmByParticipants := insertA s.dmByParticipants (DMM.getDMKey l) (DMM.freshDMId s.nextId)
            userDMs := l.foldl
              (fun m uid => insertA m uid
                (DMM.addIfAbsent ((lookupA m uid).getD []) (DMM.freshDMId s.nextId)))
              s.userDMs },
    ?_, lookupA_insertA_self _ _ _, lookupA_insertA_self _ _ _⟩
  rcases hl with rfl | rfl
  · have hmem : u1 ∈ [u1, u2] := by simp
    have hded : DMM.dedupFirst [u1, u2] = [u1, u2] := dedupFirst_pair _ _ (Ne.symm hne)
    unfold DMM.findOrCreateDM
    rw [if_pos hmem]
    dsimp only
    simp only [hded, List.length_cons, List.length_nil]
    norm_num
    rw [hlook]
    rfl
  · have hmem : u1 ∈ [u2, u1] := by simp
    have hded : DMM.dedupFirst [u2, u1] = [u2, u1] := dedupFirst_pair _ _ hne
    unfold DMM.findOrCreateDM
    rw [if_pos hmem]
    dsimp only
    simp only [hded, List.length_cons, List.length_nil]
    norm_num
    rw [← getDMKey_comm, hlook]
    rfl

/-- Claim C4: for distinct users u1 and u2, two `findOrCreateDM` calls over the
pair — in either participant order — return the same thread id: the second call
finds the thread through the canonical unordered-pair key and creates nothing.
The store hypothesis says every registered pair key points at a stored thread
(which `findOrCreateDM` itself maintains, and which rules out the non-null
assertion `dms.get(existingId)!` failing). -/
theorem claim4_findOrCreateDM_same_id (s : DMM.DMStore) (u1 u2 : String)
    (l1 l2 : List String) (t1 t2 : Nat)
    (hne : u1 ≠ u2)
    (hinv : ∀ k eid, lookupA s.dmByParticipants k = some eid →
      (lookupA s.dms eid).isSome = true)
    (hl1 : l1 = [u1, u2] ∨ l1 = [u2, u1]) (hl2 : l2 = [u1, u2] ∨ l2 = [u2, u1]) :
    ∃ dm1 s1 dm2 s2,
      DMM.findOrCreateDM l1 u1 t1 s = .ok (dm1, s1) ∧
      DMM.findOrCreateDM l2 u1 t2 s1 = .ok (dm2, s2) ∧
      dm2.id = dm1.id := by
  cases hlook : lookupA s.dmByParticipants (DMM.getDMKey [u1, u2]) with
  | some eid =>
    have hdm := hinv _ _ hlook
    cases hdms : lookupA s.dms eid with
    | none => rw [hdms] at hdm; exact absurd hdm (by simp)
    | some dm =>
      exact ⟨dm, s, dm, s,
        findOrCreateDM_pair_found u1 u2 l1 t1 s hne hl1 eid dm hlook hdms,
        findOrCreateDM_pair_found u1 u2 l2 t2 s hne hl2 eid dm hlook hdms,
        rfl⟩
  | none =>
    have hkey1 : DMM.getDMKey l1 = DMM.getDMKey [u1, u2] := by
      rcases hl1 with rfl | rfl
      · rfl
      · exact (getDMKey_comm u1 u2).symm
    obtain ⟨s1, h1, hk, hd⟩ := findOrCreateDM_pair_create u1 u2 l1 t1 s hne hl1 hlook
    rw [hkey1] at hk
    have h2 := findOrCreateDM_pair_found u1 u2 l2 t2 s1 hne hl2
      (DMM.freshDMId s.nextId) (dmPair l1 s.nextId t1) hk hd
    exact ⟨_, _, _, _, h1, h2, rfl⟩

/-- Witness for claim C4 on the empty DM store with users "ann" and "bob",
participant lists given in opposite orders. -/
theorem claim4_witness :
    ∃ dm1 s1 dm2 s2,
      DMM.findOrCreateDM ["ann", "bob"] "ann" 0 ⟨0, [], [], [], []⟩ = .ok (dm1, s1) ∧
      DMM.findOrCreateDM ["bob", "ann"] "ann" 1 s1 = .ok (dm2, s2) ∧
      dm2.id = dm1.id :=
  claim4_findOrCreateDM_same_id ⟨0, [], [], [], []⟩ "ann" "bob"
    ["ann", "bob"] ["bob", "ann"] 0 1 (by decide)
    (by intro k eid h; simp [lookupA] at h)
    (Or.inl rfl) (Or.inr rfl)

/-- Claim C5: for a private channel and a non-member, the spec's
`isAuthorizedViewer` is false, and the `channel:join` handler emits exactly one
"Access denied" error scoped to the joining connection while leaving the
session state (in particular the room subscriptions) unchanged. -/
theorem claim5_private_join_denied (cs : ChannelM.ChannelStore) (ms : MessageM.MsgStore)
    (st : SocketM.SessionState) (user : UserM.User) (sid cid : String)
    (ch : ChannelM.Channel)
    (hch : lookupA cs.channels cid = some ch)
    (hpriv : ch.type = .priv)
    (hnm : user.id ∉ ch.memberIds) :
    SocketM.isAuthorizedViewer cs cid user.id = false ∧
    SocketM.channelJoin cs ms st user sid cid = (st, [.errorTo sid "Access denied"]) := by
  have hmem : ChannelM.isMember cs cid user.id = false := by
    simp [ChannelM.isMember, hch, hnm]
  constructor
  · simp [SocketM.isAuthorizedViewer, hch, hpriv, hmem]
  · simp [SocketM.channelJoin, hch, hpriv, hmem]

/-- A private channel whose only member is "alice", for the claim-5 witness. -/
def csPriv : ChannelM.ChannelStore :=
  { nextId := 1
    channels := [("p", { id := "p", name := "p", type := .priv, description := none
                         creatorId := "alice", memberIds := ["alice"]
                         createdAt := 0, updatedAt := 0 })]
    channelsByName := [("p", "p")]
    channelMembers := [("p", [{ channelId := "p", userId := "alice", role := .owner
                                joinedAt := 0 }])] }

/-- The non-member user "eve", for the claim-5 witness. -/
def eveUser : UserM.User :=
  { id := "eve", email := "eve@x", username := "eve", passwordHash := "h"
    displayName := "Eve", avatarUrl := none, status := .active, createdAt := 0, updatedAt := 0 }

/-- Witness for claim C5: "eve" attempting to join the private channel "p". -/
theorem claim5_witness :
    SocketM.isAuthorizedViewer csPriv "p" "eve" = false ∧
    SocketM.channelJoin csPriv ⟨0, [], []⟩ ⟨[], [], []⟩ eveUser "sock1" "p"
      = (⟨[], [], []⟩, [.errorTo "sock1" "Access denied"]) :=
  claim5_private_join_denied csPriv ⟨0, [], []⟩ ⟨[], [], []⟩ eveUser "sock1" "p"
    { id := "p", name := "p", type := .priv, description := none, creatorId := "alice"
      memberIds := ["alice"], createdAt := 0, updatedAt := 0 } rfl rfl (by decide)

/-- Claim C6: a `message:send` whose trimmed content is empty and which attaches
no files is rejected with the validation error before any message- or file-store
write; the same request carrying one valid file id (a stored file uploaded by
the sender) succeeds, and the broadcast payload carries that file's metadata
(with its download url and the new message id attached). -/
theorem claim6_empty_content_send (cs : ChannelM.ChannelStore) (ms : MessageM.MsgStore)
    (fs : FileM.FileStore) (user : UserM.User) (sid cid content : String) (now : Nat)
    (fid : String) (f : FileM.FileUpload) (ch : ChannelM.Channel)
    (hempty : SocketM.jsTrim content = "")
    (hch : lookupA cs.channels cid = some ch)
    (hmem : user.id ∈ ch.memberIds)
    (hf : lookupA fs.files fid = some f)
    (hup : f.uploaderId = user.id) :
    SocketM.messageSend cs ms fs user sid ⟨cid, content, none⟩ now
      = (ms, fs, [.errorTo sid "Message content or files required"]) ∧
    (∃ message ms' fs',
      SocketM.messageSend cs ms fs user sid ⟨cid, content, some [fid]⟩ now
        = (ms', fs', [.messageNew (SocketM.channelRoom cid)
            { message := message
              user := UserM.sanitizeUser user
              files := some [{ file := { f with messageId := some message.id }
                               url := "/files/" ++ f.id ++ "/download" }] }])) := by
  have hmemB : ChannelM.isMember cs cid user.id = true := by
    simp [ChannelM.isMember, hch, hmem]
  constructor
  · simp [SocketM.messageSend, hempty]
  · refine ⟨{ id := MessageM.freshMsgId ms.nextId, channelId := cid, userId := user.id
              content := SocketM.jsTrim content, type := .text, createdAt := now, updatedAt := now },
      { nextId := ms.nextId + 1
        messages := insertA ms.messages (MessageM.freshMsgId ms.nextId)
          { id := MessageM.freshMsgId ms.nextId, channelId := cid, userId := user.id
            content := SocketM.jsTrim content, type := .text, createdAt := now, updatedAt := now }
        channelMessages := insertA ms.channelMessages cid
          (((lookupA ms.channelMessages cid).getD []) ++ [MessageM.freshMsgId ms.nextId]) },
      { files := insertA fs.files fid
          { f with messageId := some (MessageM.freshMsgId ms.nextId) } }, ?_⟩
    simp only [SocketM.messageSend, hempty, hch, hmemB]
    simp [SocketM.attachLoop, FileM.getFileById, FileM.attachFileToMessage, hf, hup,
      MessageM.createMessage]

/-- A one-channel store ("g", public, members alice) with alice a member, for the
claim-6 witness. -/
def csG : ChannelM.ChannelStore :=
  { nextId := 1
    channels := [("g", { id := "g", name := "g", type := .pub, description := none
                         creatorId := "alice", memberIds := ["alice"]
                         createdAt := 0, updatedAt := 0 })]
    channelsByName := [("g", "g")]
    channelMembers := [("g", [{ channelId := "g", userId := "alice", role := .owner
                                joinedAt := 0 }])] }

/-- The sender "alice", for the claim-6 witness. -/
def aliceUser : UserM.User :=
  { id := "alice", email := "a@x", username := "alice", passwordHash := "h"
    displayName := "Alice", avatarUrl := none, status := .active, createdAt := 0
    updatedAt := 0 }

/-- A file store holding one file "f1" uploaded by "alice", for the claim-6 witness. -/
def fsOne : FileM.FileStore :=
  { files := [("f1", { id := "f1", filename := "f1.txt", originalName := "notes.txt"
                       mimeType := "text/plain", size := 5, uploaderId := "alice"
                       channelId := some "g", dmId := none, messageId := none
                       createdAt := 0 })] }

/-- Witness for claim C6: alice sends "   " (whitespace only) with no files, then
with file "f1". -/
theorem claim6_witness :
    SocketM.messageSend csG ⟨0, [], []⟩ fsOne aliceUser "sock1" ⟨"g", "   ", none⟩ 3
      = (⟨0, [], []⟩, fsOne, [.errorTo "sock1" "Message content or files required"]) ∧
    (∃ message ms' fs',
      SocketM.messageSend csG ⟨0, [], []⟩ fsOne aliceUser "sock1" ⟨"g", "   ", some ["f1"]⟩ 3
        = (ms', fs', [.messageNew (SocketM.channelRoom "g")
            { message := message
              user := UserM.sanitizeUser aliceUser
              files := some [{ file := { id := "f1", filename := "f1.txt"
                                         originalName := "notes.txt"
                                         mimeType := "text/plain", size := 5
                                         uploaderId := "alice", channelId := some "g"
                                         dmId := none, messageId := some message.id
                                         createdAt := 0 }
                               url := "/files/" ++ "f1" ++ "/download" }] }])) :=
  claim6_empty_content_send csG ⟨0, [], []⟩ fsOne aliceUser "sock1" "g" "   " 3 "f1"
    { id := "f1", filename := "f1.txt", originalName := "notes.txt"
      mimeType := "text/plain", size := 5, uploaderId := "alice"
      channelId := some "g", dmId := none, messageId := none, createdAt := 0 }
    { id := "g", name := "g", type := .pub, description := none, creatorId := "alice"
      memberIds := ["alice"], createdAt := 0, updatedAt := 0 }
    rfl rfl (by decide) rfl rfl

/-- Claim C7: with two live connections, disconnecting the first leaves the user
store (hence the presence status) untouched and emits nothing; disconnecting the
second (last) connection sets the user offline and emits the offline
`presence:changed` broadcast exactly once. -/
theorem claim7_presence_last_disconnect (st : SocketM.SessionState)
    (uid x y : String) (u : UserM.User) (n1 n2 : Nat)
    (hxy : x ≠ y)
    (hsocks : lookupA st.userSockets uid = some [x, y])
    (hu : lookupA st.users uid = some u) :
    ∃ st1, SocketM.onDisconnect st uid x n1 = (st1, []) ∧
      st1.users = st.users ∧
      (SocketM.onDisconnect st1 uid y n2).2 = [.presenceChanged uid .offline] ∧
      lookupA (SocketM.onDisconnect st1 uid y n2).1.users uid
        = some { u with status := .offline, updatedAt := n2 } := by
  have h1 : SocketM.onDisconnect st uid x n1
      = ({ st with userSockets := insertA st.userSockets uid [y] }, []) := by
    simp [SocketM.onDisconnect, hsocks, Ne.symm hxy]
  refine ⟨_, h1, rfl, ?_, ?_⟩
  · simp [SocketM.onDisconnect, lookupA_insertA_self]
  · simp [SocketM.onDisconnect, lookupA_insertA_self, UserM.updateUser, hu]

/-- A session state where "u1" has live sockets "x" and "y" and status `active`,
for the claim-7 witness. -/
def stTwoSocks : SocketM.SessionState :=
  { userSockets := [("u1", ["x", "y"])]
    users := [("u1", { id := "u1", email := "u@x", username := "u1", passwordHash := "h"
                       displayName := "U1", avatarUrl := none, status := .active
                       createdAt := 0, updatedAt := 0 })]
    subscriptions := [] }

/-- Witness for claim C7 on `stTwoSocks`. -/
theorem claim7_witness :
    ∃ st1, SocketM.onDisconnect stTwoSocks "u1" "x" 4 = (st1, []) ∧
      st1.users = stTwoSocks.users ∧
      (SocketM.onDisconnect st1 "u1" "y" 5).2 = [.presenceChanged "u1" .offline] ∧
      lookupA (SocketM.onDisconnect st1 "u1" "y" 5).1.users "u1"
        = some { id := "u1", email := "u@x", username := "u1", passwordHash := "h"
                 displayName := "U1", avatarUrl := none, status := .offline
                 createdAt := 0, updatedAt := 5 } :=
  claim7_presence_last_disconnect stTwoSocks "u1" "x" "y"
    { id := "u1", email := "u@x", username := "u1", passwordHash := "h"
      displayName := "U1", avatarUrl := none, status := .active, createdAt := 0
      updatedAt := 0 }
    4 5 (by decide) rfl rfl

/-- Claim C8 counterexample: "alice" has status `away` and one live connection
"x"; opening a second connection "y" sets her status to `active` — the
connection prologue calls `updateUser(…, { status: 'active' })` unconditionally,
so an `away` user opening an additional connection does not keep her status. -/
theorem claim8_counterexample :
    lookupA (SocketM.onConnection
        { userSockets := [("alice", ["x"])]
          users := [("alice", { id := "alice", email := "a@x", username := "alice"
                                passwordHash := "h", displayName := "Alice"
                                avatarUrl := none, status := .away
                                createdAt := 0, updatedAt := 0 })]
          subscriptions := [] }
        { id := "alice", email := "a@x", username := "alice", passwordHash := "h"
          displayName := "Alice", avatarUrl := none, status := .away
          createdAt := 0, updatedAt := 0 }
        "y" 5).1.users "alice"
      = some { id := "alice", email := "a@x", username := "alice", passwordHash := "h"
               displayName := "Alice", avatarUrl := none, status := .active
               createdAt := 0, updatedAt := 5 } := by
  rfl

/-- Claim C8 as amended: on every successful connection the user's presence
status is set to `active` unconditionally (first connection or not, whatever the
previous status), and the global `presence:changed{active}` broadcast is emitted. -/
theorem claim8_status_set_active_unconditionally (st : SocketM.SessionState)
    (user : UserM.User) (sid : String) (now : Nat) (u0 : UserM.User)
    (hu : lookupA st.users user.id = some u0) :
    lookupA (SocketM.onConnection st user sid now).1.users user.id
      = some { u0 with status := .active, updatedAt := now } ∧
    (SocketM.onConnection st user sid now).2
      = [.presenceChanged user.id .active] := by
  constructor
  · simp [SocketM.onConnection, UserM.updateUser, hu, lookupA_insertA_self]
  · rfl

/-- Witness for claim C8's amended statement: "eve" (status `active`, no prior
sockets) connects on "s1" at time 2. -/
theorem claim8_witness :
    lookupA (SocketM.onConnection ⟨[], [("eve", eveUser)], []⟩ eveUser "s1" 2).1.users "eve"
      = some { id := "eve", email := "eve@x", username := "eve", passwordHash := "h"
               displayName := "Eve", avatarUrl := none, status := .active
               createdAt := 0, updatedAt := 2 } ∧
    (SocketM.onConnection ⟨[], [("eve", eveUser)], []⟩ eveUser "s1" 2).2
      = [.presenceChanged "eve" .active] :=
  claim8_status_set_active_unconditionally ⟨[], [("eve", eveUser)], []⟩ eveUser "s1" 2
    eveUser rfl

end Chat
